import Mathlib

/-!
Verification development for the browser capture-and-analyze tool
(`capture_and_analyze_video.py` and `controllers/openrouter_client.py`).

The Python source is shallowly embedded: times from the monotonic /
wall clocks are rationals supplied by an abstract clock stream
(`Nat → ℚ`, one entry per clock read), incoming protocol messages and
discovery payloads are explicit streams, and unbounded `while` loops
take a fuel argument and return `none` when the fuel runs out (a real
run corresponds to a `some` result).  Raising an exception is modelled
with `Except`.
-/

/-- Errors raised by the Python code paths that are modelled here.
The names follow the messages in the source: `timedOutDevTools` is the
RuntimeError raised when target discovery times out,
`targetIdNotFound` the RuntimeError for a matched page without an id,
`socketTimeout` a websocket receive timeout, `failedToReadBounds` the
RuntimeError raised in `main` when `_get_window_bounds` returns a falsy
value, `invalidWindowBounds` the RuntimeError for a non-positive capture
region, and `zeroDivision` Python's ZeroDivisionError. -/
inductive PyError where
  | timedOutDevTools
  | targetIdNotFound
  | socketTimeout
  | failedToReadBounds
  | invalidWindowBounds
  | zeroDivision
  | loadFailure
  | captureFailure
  | visionFailure
deriving DecidableEq, Repr

/-- Window bounds as returned by the Browser.getWindowBounds command. -/
structure Bounds where
  left : Int
  top : Int
  width : Int
  height : Int
deriving DecidableEq, Repr

/-- Viewport metrics returned by the in-page script
`({x: window.screenX, y: window.screenY, ow: window.outerWidth,
oh: window.outerHeight, iw: window.innerWidth, ih: window.innerHeight})`. -/
structure Viewport where
  x : Int
  y : Int
  ow : Int
  oh : Int
  iw : Int
  ih : Int
deriving DecidableEq, Repr

/-- The capture region dict built in `main`. -/
structure Region where
  left : Int
  top : Int
  width : Int
  height : Int
deriving DecidableEq, Repr

/-- One entry of the DevTools discovery payload (`GET /json`).  Fields
absent from the JSON object are `none`; `entry.get("url", "")` is
modelled by a total `url` field. -/
structure Entry where
  type : String
  webSocketDebuggerUrl : Option String
  url : String
  id : Option String
  targetId : Option String
deriving DecidableEq, Repr

/-- An incoming DevTools protocol message, flattened to the fields the
code reads: `msg.get("method")`, `msg.get("id")`,
`msg.get("result", {}).get("windowId")` and
`msg.get("result", {}).get("bounds")`. -/
structure CDPMsg where
  id : Option Int := none
  method : Option String := none
  resultWindowId : Option Int := none
  resultBounds : Option Bounds := none
deriving DecidableEq, Repr

/-- Python truthiness of an optional string: `None` and the empty
string are falsy. -/
def pyTruthy : Option String → Bool
  | none => false
  | some s => !s.isEmpty

/-- Python `a or b` on two optional strings, as in
`entry.get("id") or entry.get("targetId")`. -/
def pyOr (a b : Option String) : Option String :=
  if pyTruthy a then a else b

/-- Value of a hexadecimal digit character, or `none`. -/
def hexVal (c : Char) : Option Nat :=
  if '0' ≤ c ∧ c ≤ '9' then some (c.toNat - '0'.toNat)
  else if 'a' ≤ c ∧ c ≤ 'f' then some (c.toNat - 'a'.toNat + 10)
  else if 'A' ≤ c ∧ c ≤ 'F' then some (c.toNat - 'A'.toNat + 10)
  else none

/-- Modelled from the Python standard library: percent-decoding as done
by `urllib.parse.unquote`, on the character list of a string.  A `%`
followed by two hex digits decodes to that code point; anything else is
kept verbatim.  (Multi-byte UTF-8 escape sequences are not modelled;
all inputs used here are ASCII.) -/
def unquoteChars : List Char → List Char
  | '%' :: a :: b :: rest =>
    match hexVal a, hexVal b with
    | some ha, some hb => Char.ofNat (16 * ha + hb) :: unquoteChars rest
    | _, _ => '%' :: unquoteChars (a :: b :: rest)
  | c :: rest => c :: unquoteChars rest
  | [] => []

/-- Percent-decode a string (`urllib.parse.unquote`). -/
def unquote (s : String) : String :=
  String.mk (unquoteChars s.data)

/-- Characters after the first `://` of a URL, if present. -/
def afterSchemeSep : List Char → Option (List Char)
  | ':' :: '/' :: '/' :: rest => some rest
  | _ :: rest => afterSchemeSep rest
  | [] => none

/-- Modelled from the Python standard library: the `path` component of
`urllib.parse.urlparse` — drop the scheme and authority when the URL has
a `://` separator, then cut at the query or fragment. -/
def urlPathChars (l : List Char) : List Char :=
  let p := match afterSchemeSep l with
    | some rest => rest.dropWhile (fun c => c ≠ '/')
    | none => l
  p.takeWhile (fun c => c ≠ '?' ∧ c ≠ '#')

/-- Modelled from the Python standard library: `PurePosixPath.name` —
trailing slashes are ignored and the component after the last slash is
returned. -/
def pathLastComponent (l : List Char) : List Char :=
  ((((l.reverse).dropWhile (fun c => c = '/')).takeWhile (fun c => c ≠ '/')).reverse)

/-- The file-name component used for the fallback match:
`Path(urllib.parse.urlparse(u).path).name`. -/
def urlBasename (u : String) : String :=
  String.mk (pathLastComponent (urlPathChars u.data))

/-- The match condition applied to one discovery entry in
`_wait_for_debugger_target`:
`entry_unquoted == target_unquoted or entry_url == target_url or
(target_name and entry_name == target_name)`. -/
def entryMatches (target_url : String) (e : Entry) : Bool :=
  let target_unquoted := unquote target_url
  let target_name := urlBasename target_unquoted
  let entry_unquoted := unquote e.url
  let entry_name := urlBasename entry_unquoted
  entry_unquoted == target_unquoted || e.url == target_url ||
    (!target_name.isEmpty && entry_name == target_name)

/-- Outcome of scanning one discovery payload inside the polling loop of
`_wait_for_debugger_target`: a returned `(ws_url, target_id)` pair, the
RuntimeError raised when a matched entry has no usable id (swallowed by
the caller's bare `except`), or falling through the `for` loop with no
match. -/
inductive ScanResult where
  | found (ws_url target_id : String)
  | errNoTargetId
  | noMatch
deriving DecidableEq, Repr

/-- One pass of the `for entry in payload` loop in
`_wait_for_debugger_target`: skip entries whose type is not "page" or
whose `webSocketDebuggerUrl` is falsy, and return from the first entry
that matches the URL test. -/
def scanPayload (target_url : String) : List Entry → ScanResult
  | [] => .noMatch
  | entry :: rest =>
    if !(entry.type == "page") then scanPayload target_url rest
    else if !pyTruthy entry.webSocketDebuggerUrl then scanPayload target_url rest
    else if entryMatches target_url entry then
      let target_id := pyOr entry.id entry.targetId
      if !pyTruthy target_id then .errNoTargetId
      else .found (entry.webSocketDebuggerUrl.getD "") (target_id.getD "")
    else scanPayload target_url rest

/-- Eligibility of one entry for the scan: the conjunction of the three
guards of `scanPayload` under which the entry is consumed. -/
def entryEligible (target_url : String) (e : Entry) : Bool :=
  e.type == "page" && pyTruthy e.webSocketDebuggerUrl && entryMatches target_url e

/-- The polling loop of `_wait_for_debugger_target`.  `clock` is the
stream of `time.time()` readings (`start` was read before the loop),
`payloads i` is the discovery response obtained on iteration `i`
(`none` when `urllib.request.urlopen` or JSON decoding fails, which the
bare `except` swallows).  A scan error is likewise swallowed and polling
continues; on expiry the RuntimeError "Timed out waiting for DevTools
endpoint" is raised. -/
def resolveLoop (clock : Nat → ℚ) (payloads : Nat → Option (List Entry))
    (target_url : String) (timeout start : ℚ) :
    Nat → Nat → Option (Except PyError (String × String))
  | 0, _ => none
  | fuel + 1, tick =>
    if clock tick - start < timeout then
      match payloads tick with
      | none => resolveLoop clock payloads target_url timeout start fuel (tick + 1)
      | some payload =>
        match scanPayload target_url payload with
        | .found ws_url target_id => some (.ok (ws_url, target_id))
        | _ => resolveLoop clock payloads target_url timeout start fuel (tick + 1)
    else some (.error .timedOutDevTools)

/-- Embedding of `_wait_for_debugger_target`: read the start time, then
poll. -/
def wait_for_debugger_target (clock : Nat → ℚ) (payloads : Nat → Option (List Entry))
    (target_url : String) (timeout : ℚ) (fuel : Nat) :
    Option (Except PyError (String × String)) :=
  resolveLoop clock payloads target_url timeout (clock 0) fuel 1

/-- How `_wait_for_load_event` ends once the websocket is connected:
either `Page.loadEventFired` was received (the `return` statement), or
the `while` clause `time.time() - start < timeout` became false and the
function fell off the loop, returning `None` normally.  The source
contains no `raise` on this path. -/
inductive LoadWaitResult where
  | loadEvent
  | timeoutNormalReturn
deriving DecidableEq, Repr

/-- The receive loop of `_wait_for_load_event`.  `clock` is the stream
of `time.time()` readings inside the loop condition (`start` was read
just after the two sends), and `recvs i` is the message obtained by the
i-th `ws.recv()` — `none` when the 0.5 s socket timeout fired, which the
inner `except` turns into `continue`. -/
def loadLoop (clock : Nat → ℚ) (recvs : Nat → Option CDPMsg) (start timeout : ℚ) :
    Nat → Nat → Option LoadWaitResult
  | 0, _ => none
  | fuel + 1, tick =>
    if clock tick - start < timeout then
      match recvs tick with
      | some msg =>
        if msg.method == some "Page.loadEventFired" then some .loadEvent
        else loadLoop clock recvs start timeout fuel (tick + 1)
      | none => loadLoop clock recvs start timeout fuel (tick + 1)
    else some .timeoutNormalReturn

/-- Embedding of `_wait_for_load_event`: target resolution and the
websocket connect may raise (outcome `targetRes`); after `Page.enable`
and the cache-bypassing `Page.reload` are sent, the receive loop runs
with the start time read as `clock 0`. -/
def wait_for_load_event (targetRes : Except PyError Unit) (clock : Nat → ℚ)
    (recvs : Nat → Option CDPMsg) (timeout : ℚ) (fuel : Nat) :
    Option (Except PyError LoadWaitResult) :=
  match targetRes with
  | .error e => some (.error e)
  | .ok _ => (loadLoop clock recvs (clock 0) timeout fuel 1).map Except.ok

/-- Embedding of `_get_window_bounds` after the connection is up.  The
function sends `Browser.getWindowForTarget` with request id 3, reads ONE
incoming message and takes `result.windowId` from it; when that is
absent it returns `None`; otherwise it sends `Browser.getWindowBounds`
with request id 4, reads the next incoming message and returns its
`result.bounds`.  `recvs` is the queue of incoming messages; an empty
queue at a read is the blocking-receive timeout, which raises. -/
def get_window_bounds (recvs : List CDPMsg) : Except PyError (Option Bounds) :=
  match recvs with
  | [] => .error .socketTimeout
  | m1 :: rest =>
    match m1.resultWindowId with
    | none => .ok none
    | some _ =>
      match rest with
      | [] => .error .socketTimeout
      | m2 :: _ => .ok m2.resultBounds

/-- The capture-region computation in `main`: with viewport metrics,
`border_top = oh - ih` and `border_left = (ow - iw) // 2` (Python floor
division) are added to the window bounds and the size is the inner
size; without viewport metrics the raw window bounds are used. -/
def computeRegion (bounds : Bounds) (viewport : Option Viewport) : Region :=
  match viewport with
  | some v =>
    { left := bounds.left + Int.fdiv (v.ow - v.iw) 2
      top := bounds.top + (v.oh - v.ih)
      width := v.iw
      height := v.ih }
  | none =>
    { left := bounds.left
      top := bounds.top
      width := bounds.width
      height := bounds.height }

/-- Python `int()` applied to a nonnegative-or-negative rational:
truncation toward zero, as `int(duration * fps)` does on a float. -/
def pyInt (q : ℚ) : Int :=
  Int.tdiv q.num q.den

/-- The `while frame_count < target_frames` loop of `capture_frames`.
`clock` is the `time.perf_counter()` stream (`startTime` was read before
the loop; iteration `tick` reads `now = clock tick`).  A frame is
grabbed as soon as `now - startTime >= frame_count * interval`,
otherwise the loop sleeps briefly and re-checks.  Captured frames are
recorded by their sequence index (the index also names the written file
`frame_XXXX.png`). -/
def captureLoop (clock : Nat → ℚ) (startTime interval : ℚ) (targetFrames : Nat) :
    Nat → Nat → Nat → List Nat → Option (List Nat)
  | 0, _, _, _ => none
  | fuel + 1, tick, frameCount, acc =>
    if frameCount < targetFrames then
      if clock tick - startTime ≥ frameCount * interval then
        captureLoop clock startTime interval targetFrames fuel (tick + 1) (frameCount + 1) (acc ++ [frameCount])
      else captureLoop clock startTime interval targetFrames fuel (tick + 1) frameCount acc
    else some acc

/-- Embedding of `capture_frames`.  The Boolean component records that
`output_dir.mkdir(parents=True, exist_ok=True)` has executed (it runs
before anything can fail).  Then `interval = 1.0 / fps` raises
ZeroDivisionError when `fps == 0`; otherwise
`target_frames = int(duration * fps)` and the loop runs, starting from
`start_time = clock 0`. -/
def capture_frames (clock : Nat → ℚ) (duration fps : ℚ) (fuel : Nat) :
    Bool × Except PyError (Option (List Nat)) :=
  (true,
    if fps = 0 then .error .zeroDivision
    else
      let interval := 1 / fps
      let target_frames := (pyInt (duration * fps)).toNat
      .ok (captureLoop clock (clock 0) interval target_frames fuel 1 0 []))

/-- Body of the HTTP response seen by one attempt of
`OpenRouterClient.chat` (controllers/openrouter_client.py): a valid
JSON body without an "error" key, a valid JSON body carrying an "error"
payload, or a body whose parsing raises (`isReqExc` records whether that
parse exception is also a `requests.RequestException`, which depends on
the installed requests version). -/
inductive RespBody where
  | jsonOk
  | jsonErrorPayload (msg : String)
  | jsonInvalid (isReqExc : Bool)
deriving DecidableEq, Repr

/-- What the underlying `session.post` does on one attempt: raise a
network-level `requests.RequestException` (no response attached), or
deliver a response with a status code and a body. -/
inductive AttemptOutcome where
  | netError
  | http (code : Nat) (body : RespBody)
deriving DecidableEq, Repr

/-- Result of `OpenRouterClient.chat`, together with the list of
`time.sleep` durations performed before it was produced: a returned
payload, the immediately-raised OpenRouterError for an "error" payload
in a 2xx response, or the OpenRouterError "OpenRouter request failed
after N attempts" raised from the `except` clause. -/
inductive ChatResult where
  | success (sleeps : List ℚ)
  | payloadError (msg : String) (sleeps : List ℚ)
  | failedAfterRetries (sleeps : List ℚ)
deriving DecidableEq, Repr

/-- The status codes named in `if response.status_code in {429, 500,
502, 503, 504}` and in `retryable_status`. -/
def retryableCodes : List Nat := [429, 500, 502, 503, 504]

/-- The `retryable_status` test of the `except` clause: the status
attached to the caught exception, when there is one, lies in the
retryable set. -/
def retryStatus : Option Nat → Bool
  | some c => retryableCodes.contains c
  | none => false

/-- The `except (requests.RequestException, ValueError)` clause of
`OpenRouterClient.chat` in controllers/openrouter_client.py, applied to
a caught exception with flag `isReqExc` (whether it is a
`requests.RequestException`) and attached response status `status`.  It
recomputes `retryable_status` from the status, `is_retryable =
retryable_status or isinstance(exc, requests.RequestException)`; when
that is false or `attempt > max_retries` it raises the OpenRouterError
"OpenRouter request failed after N attempts", and otherwise it sleeps
`backoff_initial * (2 ** (attempt - 1))` and re-enters the loop
(`recurse`). -/
def chatCaught (recurse : Nat → List ℚ → Option ChatResult) (max_retries : Nat)
    (backoff_initial : ℚ) (attempt : Nat) (sleeps : List ℚ)
    (isReqExc : Bool) (status : Option Nat) : Option ChatResult :=
  let retryable_status := retryStatus status
  let is_retryable := retryable_status || isReqExc
  if !is_retryable || attempt > max_retries then some (ChatResult.failedAfterRetries sleeps)
  else recurse attempt (sleeps ++ [backoff_initial * 2 ^ (attempt - 1)])

/-- The `while True` retry loop of `OpenRouterClient.chat` in
controllers/openrouter_client.py.  `outcomes k` is what the HTTP layer
does on attempt `k` (1-based).  A status in the retryable set, and any
other status of at least 400, make `raise_for_status` raise an
HTTPError — a `requests.RequestException` carrying that status — which
goes to the `except` clause (`chatCaught`); a 2xx response is parsed,
an "error" payload raises OpenRouterError out of the loop, and
otherwise the payload is returned. -/
def chatGo (outcomes : Nat → AttemptOutcome) (max_retries : Nat) (backoff_initial : ℚ) :
    Nat → Nat → List ℚ → Option ChatResult
  | 0, _, _ => none
  | fuel + 1, attempt0, sleeps =>
    let attempt := attempt0 + 1
    let onCaught := chatCaught (chatGo outcomes max_retries backoff_initial fuel)
      max_retries backoff_initial attempt sleeps
    match outcomes attempt with
    | .netError => onCaught true none
    | .http code body =>
      if retryableCodes.contains code then onCaught true (some code)
      else if 400 ≤ code then onCaught true (some code)
      else
        match body with
        | .jsonInvalid isReqExc => onCaught isReqExc none
        | .jsonErrorPayload msg => some (.payloadError msg sleeps)
        | .jsonOk => some (.success sleeps)

/-- Embedding of `OpenRouterClient.chat`: the retry loop entered with
`attempt = 0` and no sleeps performed. -/
def chat (outcomes : Nat → AttemptOutcome) (max_retries : Nat) (backoff_initial : ℚ)
    (fuel : Nat) : Option ChatResult :=
  chatGo outcomes max_retries backoff_initial fuel 0 []

/-- Classification of an attempt outcome that the `except` clause of
`chat` catches and judges retryable: a network error, any HTTP error
status (both are `requests.RequestException`s), or an invalid JSON body
whose parse exception is a `RequestException`. -/
def caughtRetryable : AttemptOutcome → Bool
  | .netError => true
  | .http code body =>
    retryableCodes.contains code || decide (400 ≤ code) ||
      (match body with
       | .jsonInvalid b => b
       | _ => false)

/-- The `except (requests.RequestException, ValueError)` clause of the
copy of `OpenRouterClient.chat` embedded in
capture_and_analyze_video.py — the copy `main` actually invokes.  This
copy has no `is_retryable` test at all: every caught exception is
retried until `attempt > max_retries`, at which point the
OpenRouterError "OpenRouter request failed after N attempts" is
raised. -/
def chatScriptCaught (recurse : Nat → List ℚ → Option ChatResult) (max_retries : Nat)
    (backoff_initial : ℚ) (attempt : Nat) (sleeps : List ℚ) : Option ChatResult :=
  if attempt > max_retries then some (ChatResult.failedAfterRetries sleeps)
  else recurse attempt (sleeps ++ [backoff_initial * 2 ^ (attempt - 1)])

/-- The `while True` retry loop of the `OpenRouterClient.chat` copy in
capture_and_analyze_video.py.  The `try` body is identical to the
controllers copy — retryable statuses and every other status of at
least 400 raise through `raise_for_status`, a 2xx "error" payload
raises OpenRouterError out of the loop, invalid JSON raises a caught
exception — but the `except` clause (`chatScriptCaught`) retries every
caught exception with no status inspection. -/
def chatScriptGo (outcomes : Nat → AttemptOutcome) (max_retries : Nat)
    (backoff_initial : ℚ) : Nat → Nat → List ℚ → Option ChatResult
  | 0, _, _ => none
  | fuel + 1, attempt0, sleeps =>
    let attempt := attempt0 + 1
    let onCaught := chatScriptCaught (chatScriptGo outcomes max_retries backoff_initial fuel)
      max_retries backoff_initial attempt sleeps
    match outcomes attempt with
    | .netError => onCaught
    | .http code body =>
      if retryableCodes.contains code then onCaught
      else if 400 ≤ code then onCaught
      else
        match body with
        | .jsonInvalid _ => onCaught
        | .jsonErrorPayload msg => some (.payloadError msg sleeps)
        | .jsonOk => some (.success sleeps)

/-- Embedding of the `chat` copy in capture_and_analyze_video.py: its
retry loop entered with `attempt = 0` and no sleeps performed. -/
def chatScript (outcomes : Nat → AttemptOutcome) (max_retries : Nat)
    (backoff_initial : ℚ) (fuel : Nat) : Option ChatResult :=
  chatScriptGo outcomes max_retries backoff_initial fuel 0 []

/-- Classification of an attempt outcome that reaches the `except`
clause of the capture-script copy of `chat`: a network error, any HTTP
error status, or any invalid JSON body — a plain ValueError included,
since the clause catches `(requests.RequestException, ValueError)` and
retries them all. -/
def caughtByScript : AttemptOutcome → Bool
  | .netError => true
  | .http code body =>
    retryableCodes.contains code || decide (400 ≤ code) ||
      (match body with
       | .jsonInvalid _ => true
       | _ => false)

/-- The `try` block of `main`, from stage outcomes: wait for the load
event, bring the target to the front, set the window bounds, read them
back (a falsy result raises "Failed to read Chrome window bounds from
DevTools."), evaluate the viewport metrics (a falsy result selects the
raw-bounds fallback), build the region, validate it ("Invalid window
bounds detected."), capture frames, then run the vision request.  Each
stage's own outcome is a parameter; an error at any stage propagates
out of the block. -/
def mainBody (loadR bringR setBoundsR : Except PyError Unit)
    (boundsR : Except PyError (Option Bounds))
    (viewportR : Except PyError (Option Viewport))
    (captureR visionR : Except PyError Unit) : Except PyError Unit := do
  loadR
  bringR
  setBoundsR
  let b ← boundsR
  match b with
  | none => Except.error .failedToReadBounds
  | some bounds => do
    let vp ← viewportR
    let region := computeRegion bounds vp
    if region.width ≤ 0 ∨ region.height ≤ 0 then Except.error .invalidWindowBounds
    else do
      captureR
      visionR

/-- Observable outcome of one whole run of `main`: the error printed by
the `except Exception` clause (if any), the cleanup actions of the
`finally` clause, and the process exit status. -/
structure RunResult where
  printedError : Option PyError
  terminated : Bool
  killed : Bool
  profileDeleted : Bool
  exitCode : Nat
deriving DecidableEq, Repr

/-- Embedding of the `try/except/finally` tail of `main` and of process
exit.  Whatever the body does, the `except` clause prints the error and
swallows it, and the `finally` clause terminates the browser, falls back
to `kill()` when `wait(timeout=2)` does not see it exit (`waitExits`),
and deletes the temporary profile directory.  `main` then returns
normally, so the interpreter exits with status 0. -/
def runMain (body : Except PyError Unit) (waitExits : Bool) : RunResult :=
  { printedError := match body with
      | .ok _ => none
      | .error e => some e
    terminated := true
    killed := !waitExits
    profileDeleted := true
    exitCode := 0 }

/-- Fixture: a discovery entry that matches the desired URL
`file:///tmp/page.html` only through the file-name fallback. -/
def basenameOnlyEntry : Entry :=
  { type := "page"
    webSocketDebuggerUrl := some "ws://127.0.0.1:9222/devtools/page/AAA"
    url := "file:///home/other/page.html"
    id := some "AAA"
    targetId := none }

/-- Fixture: a discovery entry whose URL equals the desired URL
`file:///tmp/page.html` exactly. -/
def exactEntry : Entry :=
  { type := "page"
    webSocketDebuggerUrl := some "ws://127.0.0.1:9222/devtools/page/BBB"
    url := "file:///tmp/page.html"
    id := some "BBB"
    targetId := none }

/-- Fixture: a discovery entry that matches the desired URL exactly but
has no `webSocketDebuggerUrl`. -/
def matchingEntryNoWs : Entry :=
  { type := "page"
    webSocketDebuggerUrl := none
    url := "file:///tmp/page.html"
    id := some "AAA"
    targetId := none }

/-- Any terminating run of the capture loop extends the accumulator by
exactly the missing indices `frameCount, ..., targetFrames - 1`, for
every clock. -/
theorem captureLoop_spec (clock : Nat → ℚ) (st iv : ℚ) (target : Nat) :
    ∀ fuel tick frameCount acc res,
      captureLoop clock st iv target fuel tick frameCount acc = some res →
      res = acc ++ List.range' frameCount (target - frameCount) := by
  intro fuel
  induction fuel with
  | zero => intro tick k acc res h; simp [captureLoop] at h
  | succ fuel ih =>
    intro tick k acc res h
    rw [captureLoop] at h
    by_cases hk : k < target
    · rw [if_pos hk] at h
      have hsplit : target - k = (target - (k + 1)) + 1 := by omega
      by_cases hc : clock tick - st ≥ (k : ℚ) * iv
      · rw [if_pos hc] at h
        have := ih (tick + 1) (k + 1) (acc ++ [k]) res h
        rw [this, hsplit, List.range'_succ]
        simp
      · rw [if_neg hc] at h
        exact ih (tick + 1) k acc res h
    · rw [if_neg hk] at h
      have hz : target - k = 0 := by omega
      rw [hz]
      simp at h
      simp [h.symm]

/-- Truncation toward zero agrees with the floor on nonnegative
rationals. -/
theorem pyInt_eq_floor (q : ℚ) (hq : 0 ≤ q) : pyInt q = ⌊q⌋ := by
  rw [pyInt, Rat.floor_def]
  exact Int.tdiv_eq_ediv (Rat.num_nonneg.mpr hq) (Int.ofNat_nonneg q.den)

/-- C1: for every duration at least 0 and positive fps, any terminating
run of the frame capture loop produces exactly
`floor (duration * fps)` frames whose sequence indices are exactly
`0, 1, ..., floor (duration * fps) - 1` — strictly increasing with no
gaps — and this holds for every clock stream, so the loop stops once the
count is reached regardless of elapsed wall-clock time. -/
theorem capture_frames_count (clock : Nat → ℚ) (duration fps : ℚ) (fuel : Nat)
    (frames : List Nat) (hd : 0 ≤ duration) (hf : 0 < fps)
    (h : capture_frames clock duration fps fuel = (true, .ok (some frames))) :
    frames = List.range (⌊duration * fps⌋.toNat) ∧
      frames.length = ⌊duration * fps⌋.toNat := by
  have hfz : fps ≠ 0 := ne_of_gt hf
  rw [capture_frames] at h
  rw [if_neg hfz] at h
  have h2 := congrArg Prod.snd h
  simp only [Except.ok.injEq] at h2
  have h4 := captureLoop_spec clock (clock 0) (1 / fps) ((pyInt (duration * fps)).toNat)
    fuel 1 0 [] frames h2
  have hnn : (0 : ℚ) ≤ duration * fps := mul_nonneg hd (le_of_lt hf)
  rw [pyInt_eq_floor _ hnn] at h4
  simp only [Nat.sub_zero, List.nil_append] at h4
  refine ⟨?_, ?_⟩
  · rw [h4, List.range_eq_range']
  · rw [h4, List.length_range']

/-- Witness for C1: with a clock that advances one second per read,
capturing `duration = 5.0` at `fps = 2.0` terminates and yields exactly
the ten frames with indices 0 through 9. -/
theorem capture_frames_count_witness :
    List.range 10 = List.range (⌊(5 : ℚ) * 2⌋.toNat) ∧
      (List.range 10).length = ⌊(5 : ℚ) * 2⌋.toNat := by
  have h := capture_frames_count (fun t => (t : ℚ)) 5 2 12 (List.range 10)
    (by norm_num) (by norm_num) ?_
  · have hlen : (List.range 10).length = 10 := by simp
    exact ⟨h.1, h.2⟩
  · show (true,
      if (2 : ℚ) = 0 then Except.error PyError.zeroDivision
      else .ok (captureLoop (fun t => (t : ℚ)) ((0 : Nat) : ℚ) (1 / 2)
        ((pyInt ((5 : ℚ) * 2)).toNat) 12 1 0 [])) = (true, .ok (some (List.range 10)))
    norm_num [pyInt, captureLoop, List.range]
    rfl

/-- C10: `capture_frames` is total only under the precondition that fps
is nonzero.  The interval computation `1.0 / fps` is unguarded, so with
`fps = 0` it raises ZeroDivisionError — the first component records that
the output directory was already created at that point — while for any
nonzero fps the division error branch is unreachable and the call
reaches the capture loop. -/
theorem capture_frames_fps_zero (clock : Nat → ℚ) (duration fps : ℚ) (fuel : Nat) :
    (fps = 0 → capture_frames clock duration fps fuel = (true, .error .zeroDivision)) ∧
      (fps ≠ 0 → ∃ r, capture_frames clock duration fps fuel = (true, .ok r)) := by
  constructor
  · intro h
    rw [capture_frames, if_pos h]
  · intro h
    rw [capture_frames, if_neg h]
    exact ⟨_, rfl⟩

/-- Witness for C10: at `fps = 0` the run raises ZeroDivisionError after
creating the output directory, and at `fps = 2` it does not. -/
theorem capture_frames_fps_zero_witness :
    capture_frames (fun t => (t : ℚ)) 5 0 3 = (true, .error .zeroDivision) ∧
      ∃ r, capture_frames (fun t => (t : ℚ)) 5 2 3 = (true, .ok r) :=
  ⟨(capture_frames_fps_zero (fun t => (t : ℚ)) 5 0 3).1 rfl,
   (capture_frames_fps_zero (fun t => (t : ℚ)) 5 2 3).2 (by norm_num)⟩

/-- C4: whenever the in-page viewport evaluation succeeds, the computed
capture region is the window bounds origin shifted by
`border_left = (ow - iw) // 2` (Python floor division) and
`border_top = oh - ih`, with the inner viewport size; in particular
bounds `(0, 30, 1280, 690)` with viewport metrics
`ow = 1280, oh = 750, iw = 1280, ih = 690` give the region
`(0, 90, 1280, 690)`. -/
theorem computeRegion_viewport :
    (∀ (b : Bounds) (v : Viewport),
      computeRegion b (some v) =
        { left := b.left + Int.fdiv (v.ow - v.iw) 2
          top := b.top + (v.oh - v.ih)
          width := v.iw
          height := v.ih }) ∧
    computeRegion { left := 0, top := 30, width := 1280, height := 690 }
        (some { x := 0, y := 30, ow := 1280, oh := 750, iw := 1280, ih := 690 }) =
      { left := 0, top := 90, width := 1280, height := 690 } :=
  ⟨fun _ _ => rfl, by decide⟩

/-- C2: on every exit path of the capture run — for every combination of
stage outcomes (load wait, window focus, bounds set/get, viewport
evaluation, capture, vision call), succeeding or failing — the `finally`
clause terminates the browser subprocess, forces a kill exactly when the
graceful wait does not see it exit, and deletes the temporary profile
directory before the run ends. -/
theorem main_cleanup_always (loadR bringR setBoundsR : Except PyError Unit)
    (boundsR : Except PyError (Option Bounds))
    (viewportR : Except PyError (Option Viewport))
    (captureR visionR : Except PyError Unit) (waitExits : Bool) :
    (runMain (mainBody loadR bringR setBoundsR boundsR viewportR captureR visionR)
        waitExits).terminated = true ∧
    (runMain (mainBody loadR bringR setBoundsR boundsR viewportR captureR visionR)
        waitExits).profileDeleted = true ∧
    (runMain (mainBody loadR bringR setBoundsR boundsR viewportR captureR visionR)
        waitExits).killed = !waitExits :=
  ⟨rfl, rfl, rfl⟩

/-- C7 counterexample: a discovery failure (the RuntimeError from
`_wait_for_debugger_target` propagating out of the load wait) is caught
in `main`, which prints the descriptive message and then lets the
process end with exit status 0 — not the non-zero status the claim
requires. -/
theorem failure_exit_counterexample :
    (runMain (mainBody (.error .timedOutDevTools) (.ok ()) (.ok ()) (.ok none) (.ok none)
        (.ok ()) (.ok ())) true).printedError = some .timedOutDevTools ∧
    (runMain (mainBody (.error .timedOutDevTools) (.ok ()) (.ok ()) (.ok none) (.ok none)
        (.ok ()) (.ok ())) true).exitCode = 0 :=
  ⟨rfl, rfl⟩

/-- C7 amended: every discovery, protocol, or geometry failure aborts
the run with a descriptive message — the error is printed by the
`except` clause — but the process exit status is 0 on every path, since
`main` swallows the exception and returns normally. -/
theorem failure_exit_zero (loadR bringR setBoundsR : Except PyError Unit)
    (boundsR : Except PyError (Option Bounds))
    (viewportR : Except PyError (Option Viewport))
    (captureR visionR : Except PyError Unit) (waitExits : Bool) (e : PyError)
    (h : mainBody loadR bringR setBoundsR boundsR viewportR captureR visionR = .error e) :
    (runMain (mainBody loadR bringR setBoundsR boundsR viewportR captureR visionR)
        waitExits).printedError = some e ∧
    (runMain (mainBody loadR bringR setBoundsR boundsR viewportR captureR visionR)
        waitExits).exitCode = 0 := by
  rw [h]
  exact ⟨rfl, rfl⟩

/-- Witness for the amended C7: instantiated at a run whose geometry
stage fails because the window bounds cannot be read. -/
theorem failure_exit_zero_witness :
    (runMain (mainBody (.ok ()) (.ok ()) (.ok ()) (.ok none) (.ok none) (.ok ()) (.ok ()))
        false).printedError = some .failedToReadBounds ∧
    (runMain (mainBody (.ok ()) (.ok ()) (.ok ()) (.ok none) (.ok none) (.ok ()) (.ok ()))
        false).exitCode = 0 :=
  failure_exit_zero (.ok ()) (.ok ()) (.ok ()) (.ok none) (.ok none) (.ok ()) (.ok ())
    false .failedToReadBounds rfl

/-- C5 counterexample: with a target list holding a basename-only match
before the exact-URL match, `_wait_for_debugger_target` returns the
basename-only entry.  Exact-URL equality does NOT take precedence over
the basename fallback across the list: the first matching entry in list
order wins. -/
theorem resolve_order_counterexample :
    scanPayload "file:///tmp/page.html" [basenameOnlyEntry, exactEntry] =
      .found "ws://127.0.0.1:9222/devtools/page/AAA" "AAA" ∧
    unquote basenameOnlyEntry.url ≠ unquote "file:///tmp/page.html" ∧
    basenameOnlyEntry.url ≠ "file:///tmp/page.html" ∧
    urlBasename (unquote basenameOnlyEntry.url) =
      urlBasename (unquote "file:///tmp/page.html") ∧
    exactEntry.url = "file:///tmp/page.html" ∧
    entryMatches "file:///tmp/page.html" exactEntry = true := by
  refine ⟨by decide, by decide, by decide, by decide, by decide, by decide⟩

/-- C5 amended: target resolution returns the first entry in list order
that is of type "page", has a truthy socket URL, and satisfies any of
the three match criteria (decoded equality, raw equality, basename
fallback); per-candidate the criteria are tried in that order, but no
cross-list precedence is given to exact matches.  The returned pair is
that entry's socket URL and id (its `id` field, falling back to
`targetId`; a falsy id raises instead). -/
theorem resolve_first_eligible (tu : String) (pre post : List Entry) (e : Entry)
    (hpre : ∀ x ∈ pre, entryEligible tu x = false)
    (he : entryEligible tu e = true) :
    scanPayload tu (pre ++ e :: post) =
      (if pyTruthy (pyOr e.id e.targetId)
       then ScanResult.found (e.webSocketDebuggerUrl.getD "") ((pyOr e.id e.targetId).getD "")
       else .errNoTargetId) := by
  induction pre with
  | nil =>
    have h3 := he
    simp only [entryEligible, Bool.and_eq_true] at h3
    obtain ⟨⟨h1, h2⟩, hm⟩ := h3
    by_cases hid : pyTruthy (pyOr e.id e.targetId)
    · simp [scanPayload, h1, h2, hm, hid]
    · simp only [Bool.not_eq_true] at hid
      simp [scanPayload, h1, h2, hm, hid]
  | cons x pre ih =>
    have hx := hpre x (List.mem_cons_self x pre)
    have hrest : ∀ y ∈ pre, entryEligible tu y = false :=
      fun y hy => hpre y (List.mem_cons_of_mem x hy)
    have hih := ih hrest
    rw [List.cons_append, scanPayload]
    by_cases ht : x.type == "page"
    · by_cases hw : pyTruthy x.webSocketDebuggerUrl
      · by_cases hm : entryMatches tu x
        · exfalso
          simp [entryEligible, ht, hw, hm] at hx
        · simp only [ht, Bool.not_true, Bool.false_eq_true, if_false, hw, hm]
          simpa using hih
      · simp only [ht, Bool.not_true, Bool.false_eq_true, if_false, hw]
        simpa using hih
    · simp only [Bool.not_eq_true] at ht
      simp only [ht, Bool.not_false, if_true]
      exact hih

/-- Witness for the amended C5: a non-matching entry ahead of the exact
match does not hide it; resolution then returns the exact entry's socket
URL and id. -/
theorem resolve_first_eligible_witness :
    scanPayload "file:///tmp/page.html"
      [{ type := "background_page", webSocketDebuggerUrl := some "ws://x", url := "file:///tmp/page.html",
         id := some "ZZZ", targetId := none }, exactEntry] =
      .found "ws://127.0.0.1:9222/devtools/page/BBB" "BBB" := by
  have h := resolve_first_eligible "file:///tmp/page.html"
    [{ type := "background_page", webSocketDebuggerUrl := some "ws://x", url := "file:///tmp/page.html",
       id := some "ZZZ", targetId := none }] [] exactEntry
    (by intro x hx; simp at hx; subst hx; decide) (by decide)
  simpa using h

/-- C8 counterexample: a candidate of type "page" that matches the
desired URL but lacks a `webSocketDebuggerUrl` is silently skipped by
the scan, and a discovery list containing only such candidates makes
`_wait_for_debugger_target` poll until its timeout and raise the generic
"Timed out waiting for DevTools endpoint" RuntimeError — there is no
MissingWebSocketURL failure. -/
theorem missing_ws_counterexample :
    entryMatches "file:///tmp/page.html" matchingEntryNoWs = true ∧
    matchingEntryNoWs.type = "page" ∧
    matchingEntryNoWs.webSocketDebuggerUrl = none ∧
    scanPayload "file:///tmp/page.html" [matchingEntryNoWs] = .noMatch ∧
    wait_for_debugger_target (fun t => (t : ℚ)) (fun _ => some [matchingEntryNoWs])
        "file:///tmp/page.html" 2 4 = some (.error .timedOutDevTools) := by
  refine ⟨by decide, rfl, rfl, by decide, ?_⟩
  have hscan : scanPayload "file:///tmp/page.html" [matchingEntryNoWs] = .noMatch := by decide
  norm_num [wait_for_debugger_target, resolveLoop, hscan]

/-- Entries whose socket URL is falsy never produce a match. -/
theorem scanPayload_noWs (tu : String) :
    ∀ p : List Entry, (∀ e ∈ p, pyTruthy e.webSocketDebuggerUrl = false) →
      scanPayload tu p = .noMatch := by
  intro p
  induction p with
  | nil => intro _; rfl
  | cons e rest ih =>
    intro h
    have he := h e (List.mem_cons_self e rest)
    have hrest := fun y hy => h y (List.mem_cons_of_mem e hy)
    rw [scanPayload]
    by_cases ht : e.type == "page"
    · simp only [ht, Bool.not_true, Bool.false_eq_true, if_false, he, Bool.not_false, if_true]
      exact ih hrest
    · simp only [Bool.not_eq_true] at ht
      simp only [ht, Bool.not_false, if_true]
      exact ih hrest

/-- C8 amended: entries lacking a socket URL are skipped by the match
scan, and when every entry of every discovery response lacks one, any
terminating resolution ends with the generic discovery-timeout
RuntimeError, not a MissingWebSocketURL failure. -/
theorem missing_ws_skipped (clock : Nat → ℚ) (payloads : Nat → Option (List Entry))
    (tu : String) (timeout start : ℚ) :
    (∀ (e : Entry) (rest : List Entry), pyTruthy e.webSocketDebuggerUrl = false →
       scanPayload tu (e :: rest) = scanPayload tu rest) ∧
    (∀ fuel tick r,
       (∀ i p, payloads i = some p → ∀ e ∈ p, pyTruthy e.webSocketDebuggerUrl = false) →
       resolveLoop clock payloads tu timeout start fuel tick = some r →
       r = .error .timedOutDevTools) := by
  constructor
  · intro e rest hw
    rw [scanPayload]
    by_cases ht : e.type == "page"
    · simp [ht, hw]
    · simp only [Bool.not_eq_true] at ht
      simp [ht]
  · intro fuel
    induction fuel with
    | zero => intro tick r _ h; simp [resolveLoop] at h
    | succ fuel ih =>
      intro tick r hall h
      rw [resolveLoop] at h
      by_cases hc : clock tick - start < timeout
      · rw [if_pos hc] at h
        cases hp : payloads tick with
        | none =>
          simp only [hp] at h
          exact ih (tick + 1) r hall h
        | some p =>
          simp only [hp] at h
          rw [scanPayload_noWs tu p (hall tick p hp)] at h
          exact ih (tick + 1) r hall h
      · rw [if_neg hc] at h
        simp at h
        exact h.symm

/-- Witness for the amended C8: instantiated at the concrete
ws-less matching entry; the poll loop ends in the discovery-timeout
error. -/
theorem missing_ws_skipped_witness :
    scanPayload "file:///tmp/page.html" (matchingEntryNoWs :: []) =
      scanPayload "file:///tmp/page.html" [] ∧
    (Except.error PyError.timedOutDevTools : Except PyError (String × String)) =
      .error .timedOutDevTools := by
  constructor
  · exact (missing_ws_skipped (fun t => (t : ℚ)) (fun _ => some [matchingEntryNoWs])
      "file:///tmp/page.html" 2 0).1 matchingEntryNoWs [] rfl
  · refine (missing_ws_skipped (fun t => (t : ℚ)) (fun _ => some [matchingEntryNoWs])
      "file:///tmp/page.html" 2 0).2 4 1 _ ?_ ?_
    · intro i p hp e he
      simp at hp
      subst hp
      simp at he
      subst he
      rfl
    · have hscan : scanPayload "file:///tmp/page.html" [matchingEntryNoWs] = .noMatch := by decide
      norm_num [resolveLoop, hscan]

/-- C3 counterexample: with a websocket that only ever times out (no
message, in particular no `Page.loadEventFired`, arrives) and
`timeout = 2`, `_wait_for_load_event` falls off its `while` loop and
returns normally — it does not fail with a PageLoadTimeout error. -/
theorem load_timeout_counterexample :
    wait_for_load_event (.ok ()) (fun t => (t : ℚ) / 2) (fun _ => none) 2 6 =
      some (.ok .timeoutNormalReturn) ∧
    (Except.ok LoadWaitResult.timeoutNormalReturn : Except PyError LoadWaitResult).isOk =
      true := by
  constructor
  · norm_num [wait_for_load_event, loadLoop]
  · rfl

/-- Any terminating run of the receive loop on a stream with no
load-complete event ends by falling off the loop. -/
theorem loadLoop_no_event (clock : Nat → ℚ) (recvs : Nat → Option CDPMsg)
    (start timeout : ℚ)
    (hno : ∀ i m, recvs i = some m → (m.method == some "Page.loadEventFired") = false) :
    ∀ fuel tick r, loadLoop clock recvs start timeout fuel tick = some r →
      r = .timeoutNormalReturn := by
  intro fuel
  induction fuel with
  | zero => intro tick r h; simp [loadLoop] at h
  | succ fuel ih =>
    intro tick r h
    rw [loadLoop] at h
    by_cases hc : clock tick - start < timeout
    · rw [if_pos hc] at h
      cases hm : recvs tick with
      | none =>
        simp only [hm] at h
        exact ih (tick + 1) r h
      | some msg =>
        simp only [hm, hno tick msg hm, Bool.false_eq_true, if_false] at h
        exact ih (tick + 1) r h
    · rw [if_neg hc] at h
      simp at h
      exact h.symm

/-- C3 amended: if the load-complete event does not arrive within the
timeout after the cache-bypassing reload is issued, `_wait_for_load_event`
returns normally after the timeout elapses — the unsynchronized reload
is not reported as an error. -/
theorem load_timeout_normal_return (clock : Nat → ℚ) (recvs : Nat → Option CDPMsg)
    (timeout : ℚ) (fuel : Nat) (x : Except PyError LoadWaitResult)
    (hno : ∀ i m, recvs i = some m → (m.method == some "Page.loadEventFired") = false)
    (h : wait_for_load_event (.ok ()) clock recvs timeout fuel = some x) :
    x = .ok .timeoutNormalReturn := by
  rw [wait_for_load_event] at h
  cases hl : loadLoop clock recvs (clock 0) timeout fuel 1 with
  | none => rw [hl] at h; simp at h
  | some r =>
    have hr := loadLoop_no_event clock recvs (clock 0) timeout hno fuel 1 r hl
    subst hr
    rw [hl] at h
    exact (Option.some.inj h).symm

/-- Witness for the amended C3: the concrete silent websocket run. -/
theorem load_timeout_normal_return_witness :
    (Except.ok LoadWaitResult.timeoutNormalReturn :
        Except PyError LoadWaitResult) = .ok .timeoutNormalReturn := by
  refine load_timeout_normal_return (fun t => (t : ℚ) / 2) (fun _ => none) 2 6 _ ?_ ?_
  · intro i m h
    simp at h
  · norm_num [wait_for_load_event, loadLoop]

/-- C6 counterexample: `_get_window_bounds` sends its requests with
correlation ids 3 and 4 but consumes the next two incoming messages
without inspecting their ids.  A queue whose messages carry unrelated
ids 999 and 998 — responses to other requests — is happily treated as
the two awaited responses. -/
theorem bounds_correlation_counterexample :
    get_window_bounds
      [{ id := some 999, resultWindowId := some 77 },
       { id := some 998, resultBounds := some { left := 5, top := 6, width := 7, height := 8 } }] =
      .ok (some { left := 5, top := 6, width := 7, height := 8 }) ∧
    (some (999 : Int) : Option Int) ≠ some 3 ∧
    (some (998 : Int) : Option Int) ≠ some 4 := by
  refine ⟨rfl, by decide, by decide⟩

/-- C6 amended: the session never matches responses by correlation id at
all — the result of `_get_window_bounds` is unchanged under arbitrary
rewriting of the ids of the incoming messages, because only the shapes
(`result.windowId` of the first message, `result.bounds` of the second)
are consulted. -/
theorem bounds_id_ignored (m1 m2 : CDPMsg) (rest : List CDPMsg) (i j : Option Int) :
    get_window_bounds ({ m1 with id := i } :: { m2 with id := j } :: rest) =
      get_window_bounds (m1 :: m2 :: rest) := by
  cases h : m1.resultWindowId with
  | none => simp [get_window_bounds, h]
  | some w => simp [get_window_bounds, h]

/-- C9 counterexample: an HTTP 404 — a client error outside the
server/rate-limit status classes — raises an HTTPError, which is a
`requests.RequestException`, so `is_retryable` is true and the attempt
is retried (with sleeps 2, 4, 8 for `backoff_initial = 2`) instead of
being surfaced immediately. -/
theorem retry_counterexample :
    retryStatus (some 404) = false ∧
    chat (fun _ => .http 404 .jsonOk) 3 2 8 =
      some (.failedAfterRetries [2, 4, 8]) ∧
    ([2, 4, 8] : List ℚ) ≠ [] := by
  have h404 : retryableCodes.contains 404 = false := by decide
  refine ⟨by decide, ?_, by simp⟩
  norm_num [chat, chatGo, chatCaught, retryStatus, h404]

/-- On the last admissible attempt, every caught exception makes the
loop raise OpenRouterError with the sleeps performed so far. -/
theorem chatCaught_last (recurse : Nat → List ℚ → Option ChatResult) (mR : Nat) (b : ℚ)
    (attempt : Nat) (sleeps : List ℚ) (isReqExc : Bool) (status : Option Nat)
    (h : attempt > mR) :
    chatCaught recurse mR b attempt sleeps isReqExc status =
      some (.failedAfterRetries sleeps) := by
  rw [chatCaught]
  simp [h]

/-- A retryable caught exception before the last admissible attempt
sleeps `backoff_initial * 2 ^ (attempt - 1)` and re-enters the loop. -/
theorem chatCaught_retry (recurse : Nat → List ℚ → Option ChatResult) (mR : Nat) (b : ℚ)
    (attempt : Nat) (sleeps : List ℚ) (isReqExc : Bool) (status : Option Nat)
    (hretry : (retryStatus status || isReqExc) = true) (h : ¬attempt > mR) :
    chatCaught recurse mR b attempt sleeps isReqExc status =
      recurse attempt (sleeps ++ [b * 2 ^ (attempt - 1)]) := by
  rw [chatCaught]
  simp [hretry, h]

/-- When every attempt fails with an exception the `except` clause
catches and judges retryable, the loop sleeps
`backoff_initial * 2 ^ (k - 1)` before the k-th retry and raises
OpenRouterError once `attempt > max_retries`. -/
theorem chatGo_allRetryable (outcomes : Nat → AttemptOutcome) (mR : Nat) (b : ℚ)
    (hall : ∀ k, caughtRetryable (outcomes k) = true) :
    ∀ fuel a s, a ≤ mR → a + fuel = mR + 1 →
      chatGo outcomes mR b fuel a s =
        some (.failedAfterRetries (s ++ (List.range' a (mR - a)).map (fun k => b * 2 ^ k))) := by
  intro fuel
  induction fuel with
  | zero =>
    intro a s ha hsum
    exact absurd hsum (by omega)
  | succ fuel ih =>
    intro a s ha hsum
    have hcr := hall (a + 1)
    rw [chatGo]
    by_cases hend : mR = a
    · have hlast : a + 1 > mR := by omega
      have hzero : mR - a = 0 := by omega
      simp only [hzero, List.range', List.map_nil, List.append_nil]
      cases ho : outcomes (a + 1) with
      | netError =>
        simp only
        rw [chatCaught_last _ _ _ _ _ _ _ hlast]
      | http code body =>
        simp only [caughtRetryable, ho, Bool.or_eq_true, decide_eq_true_eq] at hcr
        simp only
        by_cases h1 : retryableCodes.contains code = true
        · rw [if_pos h1, chatCaught_last _ _ _ _ _ _ _ hlast]
        · rw [if_neg h1]
          by_cases h2 : 400 ≤ code
          · rw [if_pos h2, chatCaught_last _ _ _ _ _ _ _ hlast]
          · rw [if_neg h2]
            cases body with
            | jsonInvalid flag =>
              simp only
              rw [chatCaught_last _ _ _ _ _ _ _ hlast]
            | jsonErrorPayload msg =>
              exfalso
              rcases hcr with (hc | hc) | hc
              · exact h1 hc
              · exact h2 hc
              · simp at hc
            | jsonOk =>
              exfalso
              rcases hcr with (hc | hc) | hc
              · exact h1 hc
              · exact h2 hc
              · simp at hc
    · have hnotlast : ¬(a + 1 > mR) := by omega
      have hrec := ih (a + 1) (s ++ [b * 2 ^ a]) (by omega) (by omega)
      have hsplit : mR - a = (mR - (a + 1)) + 1 := by omega
      have hlist :
          s ++ (List.range' a (mR - a)).map (fun k => b * 2 ^ k) =
            (s ++ [b * 2 ^ a]) ++
              (List.range' (a + 1) (mR - (a + 1))).map (fun k => b * 2 ^ k) := by
        rw [hsplit, List.range'_succ, List.map_cons, List.append_cons]
      have hexp : a + 1 - 1 = a := by omega
      cases ho : outcomes (a + 1) with
      | netError =>
        simp only
        rw [chatCaught_retry _ _ _ _ _ _ _ (by simp) hnotlast, hexp, hrec, hlist]
      | http code body =>
        simp only [caughtRetryable, ho, Bool.or_eq_true, decide_eq_true_eq] at hcr
        simp only
        by_cases h1 : retryableCodes.contains code = true
        · rw [if_pos h1, chatCaught_retry _ _ _ _ _ _ _ (by simp) hnotlast, hexp, hrec, hlist]
        · rw [if_neg h1]
          by_cases h2 : 400 ≤ code
          · rw [if_pos h2, chatCaught_retry _ _ _ _ _ _ _ (by simp) hnotlast, hexp, hrec,
              hlist]
          · rw [if_neg h2]
            cases body with
            | jsonInvalid flag =>
              have hflag : flag = true := by
                rcases hcr with (hc | hc) | hc
                · exact absurd hc h1
                · exact absurd hc h2
                · simpa using hc
              simp only
              rw [chatCaught_retry _ _ _ _ _ _ _ (by simp [hflag]) hnotlast, hexp, hrec,
                hlist]
            | jsonErrorPayload msg =>
              exfalso
              rcases hcr with (hc | hc) | hc
              · exact h1 hc
              · exact h2 hc
              · simp at hc
            | jsonOk =>
              exfalso
              rcases hcr with (hc | hc) | hc
              · exact h1 hc
              · exact h2 hc
              · simp at hc

/-- On the last admissible attempt, a caught exception makes the
capture-script copy of the loop raise OpenRouterError with the sleeps
performed so far. -/
theorem chatScriptCaught_last (recurse : Nat → List ℚ → Option ChatResult) (mR : Nat)
    (b : ℚ) (attempt : Nat) (sleeps : List ℚ) (h : attempt > mR) :
    chatScriptCaught recurse mR b attempt sleeps =
      some (.failedAfterRetries sleeps) := by
  rw [chatScriptCaught]
  simp [h]

/-- Before the last admissible attempt, any caught exception makes the
capture-script copy sleep `backoff_initial * 2 ^ (attempt - 1)` and
re-enter the loop. -/
theorem chatScriptCaught_retry (recurse : Nat → List ℚ → Option ChatResult) (mR : Nat)
    (b : ℚ) (attempt : Nat) (sleeps : List ℚ) (h : ¬attempt > mR) :
    chatScriptCaught recurse mR b attempt sleeps =
      recurse attempt (sleeps ++ [b * 2 ^ (attempt - 1)]) := by
  rw [chatScriptCaught]
  simp [h]

/-- When every attempt of the capture-script copy fails with a caught
exception — which its `except` clause always retries — the loop sleeps
`backoff_initial * 2 ^ (k - 1)` before the k-th retry and raises
OpenRouterError once `attempt > max_retries`. -/
theorem chatScriptGo_allCaught (outcomes : Nat → AttemptOutcome) (mR : Nat) (b : ℚ)
    (hall : ∀ k, caughtByScript (outcomes k) = true) :
    ∀ fuel a s, a ≤ mR → a + fuel = mR + 1 →
      chatScriptGo outcomes mR b fuel a s =
        some (.failedAfterRetries (s ++ (List.range' a (mR - a)).map (fun k => b * 2 ^ k))) := by
  intro fuel
  induction fuel with
  | zero =>
    intro a s ha hsum
    exact absurd hsum (by omega)
  | succ fuel ih =>
    intro a s ha hsum
    have hcr := hall (a + 1)
    rw [chatScriptGo]
    by_cases hend : mR = a
    · have hlast : a + 1 > mR := by omega
      have hzero : mR - a = 0 := by omega
      simp only [hzero, List.range', List.map_nil, List.append_nil]
      cases ho : outcomes (a + 1) with
      | netError =>
        simp only
        rw [chatScriptCaught_last _ _ _ _ _ hlast]
      | http code body =>
        simp only [caughtByScript, ho, Bool.or_eq_true, decide_eq_true_eq] at hcr
        simp only
        by_cases h1 : retryableCodes.contains code = true
        · rw [if_pos h1, chatScriptCaught_last _ _ _ _ _ hlast]
        · rw [if_neg h1]
          by_cases h2 : 400 ≤ code
          · rw [if_pos h2, chatScriptCaught_last _ _ _ _ _ hlast]
          · rw [if_neg h2]
            cases body with
            | jsonInvalid flag =>
              simp only
              rw [chatScriptCaught_last _ _ _ _ _ hlast]
            | jsonErrorPayload msg =>
              exfalso
              rcases hcr with (hc | hc) | hc
              · exact h1 hc
              · exact h2 hc
              · simp at hc
            | jsonOk =>
              exfalso
              rcases hcr with (hc | hc) | hc
              · exact h1 hc
              · exact h2 hc
              · simp at hc
    · have hnotlast : ¬(a + 1 > mR) := by omega
      have hrec := ih (a + 1) (s ++ [b * 2 ^ a]) (by omega) (by omega)
      have hsplit : mR - a = (mR - (a + 1)) + 1 := by omega
      have hlist :
          s ++ (List.range' a (mR - a)).map (fun k => b * 2 ^ k) =
            (s ++ [b * 2 ^ a]) ++
              (List.range' (a + 1) (mR - (a + 1))).map (fun k => b * 2 ^ k) := by
        rw [hsplit, List.range'_succ, List.map_cons, List.append_cons]
      have hexp : a + 1 - 1 = a := by omega
      cases ho : outcomes (a + 1) with
      | netError =>
        simp only
        rw [chatScriptCaught_retry _ _ _ _ _ hnotlast, hexp, hrec, hlist]
      | http code body =>
        simp only [caughtByScript, ho, Bool.or_eq_true, decide_eq_true_eq] at hcr
        simp only
        by_cases h1 : retryableCodes.contains code = true
        · rw [if_pos h1, chatScriptCaught_retry _ _ _ _ _ hnotlast, hexp, hrec, hlist]
        · rw [if_neg h1]
          by_cases h2 : 400 ≤ code
          · rw [if_pos h2, chatScriptCaught_retry _ _ _ _ _ hnotlast, hexp, hrec, hlist]
          · rw [if_neg h2]
            cases body with
            | jsonInvalid flag =>
              simp only
              rw [chatScriptCaught_retry _ _ _ _ _ hnotlast, hexp, hrec, hlist]
            | jsonErrorPayload msg =>
              exfalso
              rcases hcr with (hc | hc) | hc
              · exact h1 hc
              · exact h2 hc
              · simp at hc
            | jsonOk =>
              exfalso
              rcases hcr with (hc | hc) | hc
              · exact h1 hc
              · exact h2 hc
              · simp at hc

/-- C9 amended: in both copies of `chat`, retries are not limited to
the server/rate-limit status classes — every caught requests-level
exception (network failures and all HTTP error statuses, client errors
such as 400/404 included) is retried with sleeps
`backoff_initial * 2 ^ (k - 1)` before the k-th retry, for
`max_retries` retries (`max_retries + 1` attempts in total), then
OpenRouterError is raised; an error payload in a 2xx response raises
OpenRouterError immediately, before any sleep, in both copies; and the
copies differ on a caught plain ValueError that is not a
`requests.RequestException`: the controllers copy surfaces it without
any retry, while the capture-script copy — the one `main` invokes —
retries every caught exception, that ValueError included. -/
theorem retry_all_request_exceptions (outcomes : Nat → AttemptOutcome)
    (max_retries : Nat) (backoff_initial : ℚ) :
    ((∀ k, caughtRetryable (outcomes k) = true) →
      chat outcomes max_retries backoff_initial (max_retries + 1) =
        some (.failedAfterRetries
          ((List.range max_retries).map (fun k => backoff_initial * 2 ^ k)))) ∧
    (outcomes 1 = .http 200 (.jsonInvalid false) →
      ∀ fuel, chat outcomes max_retries backoff_initial (fuel + 1) =
        some (.failedAfterRetries [])) ∧
    (∀ msg, outcomes 1 = .http 200 (.jsonErrorPayload msg) →
      ∀ fuel,
        chat outcomes max_retries backoff_initial (fuel + 1) =
          some (.payloadError msg []) ∧
        chatScript outcomes max_retries backoff_initial (fuel + 1) =
          some (.payloadError msg [])) ∧
    ((∀ k, caughtByScript (outcomes k) = true) →
      chatScript outcomes max_retries backoff_initial (max_retries + 1) =
        some (.failedAfterRetries
          ((List.range max_retries).map (fun k => backoff_initial * 2 ^ k)))) := by
  have hc200 : ¬((200 : Nat) ∈ retryableCodes) := by decide
  have hn200 : ¬(400 ≤ 200) := by omega
  refine ⟨?_, ?_, ?_, ?_⟩
  · intro hall
    have h := chatGo_allRetryable outcomes max_retries backoff_initial hall
      (max_retries + 1) 0 [] (Nat.zero_le _) (by omega)
    rw [chat, h, Nat.sub_zero, ← List.range_eq_range', List.nil_append]
  · intro h1 fuel
    rw [chat, chatGo]
    simp [h1, hc200, hn200, chatCaught, retryStatus]
  · intro msg h1 fuel
    constructor
    · rw [chat, chatGo]
      simp [h1, hc200, hn200]
    · rw [chatScript, chatScriptGo]
      simp [h1, hc200, hn200]
  · intro hall
    have h := chatScriptGo_allCaught outcomes max_retries backoff_initial hall
      (max_retries + 1) 0 [] (Nat.zero_le _) (by omega)
    rw [chatScript, h, Nat.sub_zero, ← List.range_eq_range', List.nil_append]

/-- Witness for the amended C9: all-failing network attempts with
`max_retries = 2`, `backoff_initial = 3` sleep 3 then 6 and fail in
both copies; a non-request ValueError on the first attempt fails with
no sleep in the controllers copy but is retried like everything else
by the capture-script copy; and a 2xx "error" payload raises
immediately, with no sleep, in both copies. -/
theorem retry_all_request_exceptions_witness :
    chat (fun _ => .netError) 2 3 3 = some (.failedAfterRetries [3, 6]) ∧
    chat (fun _ => .http 200 (.jsonInvalid false)) 5 7 1 =
      some (.failedAfterRetries []) ∧
    chat (fun _ => .http 200 (.jsonErrorPayload "quota exceeded")) 5 7 1 =
      some (.payloadError "quota exceeded" []) ∧
    chatScript (fun _ => .http 200 (.jsonErrorPayload "quota exceeded")) 5 7 1 =
      some (.payloadError "quota exceeded" []) ∧
    chatScript (fun _ => .http 200 (.jsonInvalid false)) 2 3 3 =
      some (.failedAfterRetries [3, 6]) := by
  have hr : List.range 2 = [0, 1] := by decide
  have hpay := (retry_all_request_exceptions
    (fun _ => .http 200 (.jsonErrorPayload "quota exceeded")) 5 7).2.2.1
    "quota exceeded" rfl 0
  refine ⟨?_, ?_, hpay.1, hpay.2, ?_⟩
  · have h := (retry_all_request_exceptions (fun _ => .netError) 2 3).1 (fun k => rfl)
    rw [hr] at h
    refine h.trans ?_
    norm_num
  · exact (retry_all_request_exceptions
      (fun _ => .http 200 (.jsonInvalid false)) 5 7).2.1 rfl 0
  · have h := (retry_all_request_exceptions
      (fun _ => .http 200 (.jsonInvalid false)) 2 3).2.2.2 (fun k => by decide)
    rw [hr] at h
    refine h.trans ?_
    norm_num
